import Mathlib

/-!
Verification development for the goxdcr control plane: a shallow embedding of
the replication-spec metadata service (`metadata_svc` package) and of the
generic supervisor (`supervisor` package), together with theorems settling the
specification claims about them.

Conventions of the embedding:
* Go `(value, error)` multi-returns become `Except String value` (or an
  explicit pair when the source inspects both components, as with the bucket
  UUID probes).
* Go pointer-typed fields that may be `nil` become `Option`.
* Calls to external collaborators (topology service, remote-cluster service,
  bucket UUID probes, cluster-compatibility probe, metadata store operations)
  are modelled as inputs: an environment record carries the result each call
  returns during the run under study.
* Go panics become the `Except.error` branch of the modelled operation.
* Machine integers are `Nat` with an explicit `% 2 ^ 16` where the source uses
  `uint16` arithmetic.
-/

deriving instance DecidableEq for Except

/-! ### Constants from the `base` package (src/unnamed/part_000) -/

def KeyPartsDelimiter : String := "_"

def UrlDelimiter : String := "/"

/-! ### Constants from `metadata_svc` (src/unnamed/part_001) -/

def ReplicationSpecsCatalogKey : String := "replicationSpec"

def ReplicationSpecAlreadyExistErrorMessage : String :=
  "Replication to the same remote cluster and bucket already exists"

def ReplicationSpecNotFoundErrorMessage : String := "Requested resource not found"

/-- Modelled from the spec: the validation-error field keys of the admin
surface (spec section 6) live in the `base` package, which is not under src:
fromBucket, toCluster, toBucket and a placeHolderFieldKey catch-all. -/
def FromBucket : String := "fromBucket"

def ToCluster : String := "toCluster"

def ToBucket : String := "toBucket"

def PlaceHolderFieldKey : String := "placeHolderFieldKey"

/-- Errors returned by the bucket-UUID probes of the `utils` package (not under
src). Modelled from the spec: `LocalBucketUUID(connStr, bucket) returns
uuid | non-existent-bucket | err` (spec section 6); the source compares the
returned error against `utils.NonExistentBucketError`, any other error value is
a transient probe failure. -/
inductive UtilsError where
  | nonExistentBucket
  | other (msg : String)
deriving DecidableEq, Repr

/-- Result pair of a bucket-UUID probe, mirroring the Go multi-return
`(uuid string, err error)` of `utils.LocalBucketUUID` /
`utils.RemoteBucketUUID`: the source reads both components. -/
abbrev BucketProbe := String × Option UtilsError

/-- Class errors returned by `ValidateExistingReplicationSpec`: either the
well-known sentinel `InvalidReplicationSpecError` or some other error value. -/
inductive GoErr where
  | invalidReplicationSpec
  | errMsg (s : String)
deriving DecidableEq, Repr

/-! ### Data model: `metadata.ReplicationSpecification` and the cache value -/

/-- The replication specification record (`metadata` package; the fields used
by the service under src). The opaque revision token is modelled as
`Option Nat` (`none` is the Go zero value `nil`). -/
structure ReplicationSpecification where
  id : String
  sourceBucketName : String
  sourceBucketUUID : String
  targetClusterUUID : String
  targetBucketName : String
  targetBucketUUID : String
  revision : Option Nat
deriving DecidableEq, Repr

/-- `ReplicationSpecVal`: a replication spec and its derived object; this is
what is put into the cache. The derived object is opaque (`interface` in Go),
modelled as `Option Nat` where `none` is Go `nil`. -/
structure ReplicationSpecVal where
  spec : Option ReplicationSpecification
  derivedObj : Option Nat
deriving DecidableEq, Repr

/-- First-match lookup in an association list keyed by strings. -/
def lookupKey {α : Type} (l : List (String × α)) (k : String) : Option α :=
  match l with
  | [] => none
  | e :: rest => if e.1 = k then some e.2 else lookupKey rest k

/-- Modelled from the spec: the `MetadataCache` type (spec section 4.2) is not
under src; it is a plain mapping identifier to record with get, upsert and
delete, where absence is a valid result. -/
structure MetadataCache where
  entries : List (String × ReplicationSpecVal)
deriving DecidableEq, Repr

def MetadataCache.get (c : MetadataCache) (k : String) : Option ReplicationSpecVal :=
  lookupKey c.entries k

def MetadataCache.upsert (c : MetadataCache) (k : String) (v : ReplicationSpecVal) :
    MetadataCache :=
  if (lookupKey c.entries k).isSome then
    ⟨c.entries.map (fun e => if e.1 = k then (k, v) else e)⟩
  else
    ⟨c.entries ++ [(k, v)]⟩

def MetadataCache.delete (c : MetadataCache) (k : String) : MetadataCache :=
  ⟨c.entries.filter (fun e => e.1 ≠ k)⟩

/-! ### Modelled metadata catalog (spec section 4.1)

The `MetadataSvc` implementation is not under src. Modelled from the spec:
`delWithCatalog(catalog, key, revision)` is a compare-and-swap delete returning
ok, revision-mismatch or not-found. Only the key-to-revision view is needed by
the claims. -/

structure Catalog where
  entries : List (String × Option Nat)
deriving DecidableEq, Repr

def Catalog.delWithCatalog (cat : Catalog) (key : String) (rev : Option Nat) :
    Except String Catalog :=
  match lookupKey cat.entries key with
  | none => .error "not-found"
  | some r =>
      if r = rev then .ok ⟨cat.entries.filter (fun e => e.1 ≠ key)⟩
      else .error "revision-mismatch"

/-! ### Replication-spec service operations (src/unnamed/part_001)

The service functions below take the cache directly: the claims concern an
initialized service, for which `getCache` succeeds. -/

def getKeyFromReplicationId (replicationId : String) : String :=
  ReplicationSpecsCatalogKey ++ KeyPartsDelimiter ++ replicationId

/-- `ReplicationSpec(replicationId)`: cache read returning not-found when the
entry is absent or its spec field is nil. -/
def ReplicationSpec (c : MetadataCache) (replicationId : String) :
    Except String ReplicationSpecification :=
  match c.get replicationId with
  | none => .error ReplicationSpecNotFoundErrorMessage
  | some val =>
      match val.spec with
      | none => .error ReplicationSpecNotFoundErrorMessage
      | some s => .ok s

/-- `cacheSpec`: update the spec field of an existing entry in place, or insert
a fresh `ReplicationSpecVal` (derived object nil) when the id was never cached,
then upsert. -/
def cacheSpec (c : MetadataCache) (specId : String)
    (spec : Option ReplicationSpecification) : MetadataCache :=
  match c.get specId with
  | some cachedObj => c.upsert specId { cachedObj with spec := spec }
  | none => c.upsert specId { spec := spec, derivedObj := none }

/-- `AllReplicationSpecs`: every cache entry whose spec field is non-nil. -/
def AllReplicationSpecs (c : MetadataCache) : List (String × ReplicationSpecification) :=
  c.entries.filterMap (fun e => (e.2.spec).map (fun s => (e.1, s)))

/-- `SetDerivedObj(specId, derivedObj)`: not-found when the entry is absent;
otherwise set the derived-object field and hard-delete the entry when both the
spec and the derived object are now nil. -/
def SetDerivedObj (c : MetadataCache) (specId : String) (derivedObj : Option Nat) :
    Except String MetadataCache :=
  match c.get specId with
  | none => .error ReplicationSpecNotFoundErrorMessage
  | some cachedObj =>
      let cachedObj := { cachedObj with derivedObj := derivedObj }
      if cachedObj.spec = none ∧ cachedObj.derivedObj = none then
        .ok (c.delete specId)
      else
        .ok (c.upsert specId cachedObj)

/-- `GetDerviedObj(specId)` (source spelling): not-found when the entry is
absent; otherwise return the derived-object field. -/
def GetDerviedObj (c : MetadataCache) (specId : String) : Except String (Option Nat) :=
  match c.get specId with
  | none => .error ReplicationSpecNotFoundErrorMessage
  | some cachedObj => .ok cachedObj.derivedObj

/-- `delReplicationSpec_internal(replicationId, reason)`: look the spec up,
delete it in the catalog under the spec revision, then soft-remove in the
cache. The source performs the soft-removal via `cache.Get(key)` where `key`
is the catalog key `getKeyFromReplicationId(replicationId)`, mutating the found
value in place (`specVal.spec = nil`); the in-place pointer mutation is
rendered as an upsert at that same key. A UI log "removed" is written on
success. -/
def delReplicationSpecInternal (cat : Catalog) (c : MetadataCache)
    (replicationId : String) :
    Except String (ReplicationSpecification × Catalog × MetadataCache) :=
  match ReplicationSpec c replicationId with
  | .error _ => .error ReplicationSpecNotFoundErrorMessage
  | .ok spec =>
      let key := getKeyFromReplicationId replicationId
      match cat.delWithCatalog key spec.revision with
      | .error e => .error e
      | .ok cat2 =>
          let c2 := match c.get key with
            | some specVal => c.upsert key { specVal with spec := none }
            | none => c
          .ok (spec, cat2, c2)

/-- `DelReplicationSpec(replicationId)` delegates to the internal delete with
an empty reason. -/
def DelReplicationSpec (cat : Catalog) (c : MetadataCache) (replicationId : String) :
    Except String (ReplicationSpecification × Catalog × MetadataCache) :=
  delReplicationSpecInternal cat c replicationId

/-! ### `ValidateExistingReplicationSpec` and `ValidateAndGC` -/

/-- Lookup errors of `RemoteClusterSvc.RemoteClusterByUuid`: the source
distinguishes `service_def.MetadataNotFoundErr` from every other error. -/
inductive RCLookupErr where
  | metadataNotFound
  | other (msg : String)
deriving DecidableEq, Repr

/-- The fields of a remote cluster reference read by the service under src. -/
structure RemoteClusterRef where
  uuid : String
deriving DecidableEq, Repr

/-- Environment of one `ValidateExistingReplicationSpec` run: the results of
the external probes it performs, in program order. -/
structure ExistEnv where
  myConnectionStr : String
  localBucketProbe : BucketProbe
  remoteClusterByUuid : Except RCLookupErr RemoteClusterRef
  refConnStr : Except String String
  refCredentials : Except String (String × String)
  remoteBucketProbe : BucketProbe
deriving DecidableEq, Repr

/-- `ValidateExistingReplicationSpec(spec)` returning the Go pair
`(classErr, detailErr)`: the sentinel `InvalidReplicationSpecError` when a
referent is missing or a captured non-empty bucket UUID differs from the
probed one; a remote-cluster lookup failure other than not-found is passed
through as the class error with a nil detail. The empty-connection-string
panic is modelled as a distinguished detail message under an `errMsg` class. -/
def ValidateExistingReplicationSpec (env : ExistEnv) (spec : ReplicationSpecification) :
    Option GoErr × Option String :=
  if env.myConnectionStr = "" then
    (some (GoErr.errMsg "panic"),
      some "XDCRTopologySvc.MyConnectionStr() should not return empty string")
  else if env.localBucketProbe.2 = some UtilsError.nonExistentBucket then
    (some GoErr.invalidReplicationSpec,
      some ("spec " ++ spec.id ++ " refers to non-existent source bucket " ++
        spec.sourceBucketName))
  else if spec.sourceBucketUUID ≠ "" ∧ spec.sourceBucketUUID ≠ env.localBucketProbe.1 then
    (some GoErr.invalidReplicationSpec,
      some ("spec " ++ spec.id ++ " refers to bucket " ++ spec.sourceBucketName ++
        " which was deleted and recreated"))
  else
    match env.remoteClusterByUuid with
    | .error RCLookupErr.metadataNotFound =>
        (some GoErr.invalidReplicationSpec,
          some ("spec " ++ spec.id ++ " refers to non-existent remote cluster reference " ++
            spec.targetClusterUUID))
    | .error (RCLookupErr.other e) => (some (GoErr.errMsg e), none)
    | .ok _ =>
        match env.refConnStr with
        | .error e =>
            (some GoErr.invalidReplicationSpec,
              some ("spec " ++ spec.id ++
                " refers to an invalid remote cluster reference, MyConnectionStr err " ++ e))
        | .ok _ =>
            match env.refCredentials with
            | .error e =>
                (some GoErr.invalidReplicationSpec,
                  some ("spec " ++ spec.id ++
                    " refers to an invalid remote cluster reference, MyCredentials err " ++ e))
            | .ok _ =>
                if env.remoteBucketProbe.2 = some UtilsError.nonExistentBucket then
                  (some GoErr.invalidReplicationSpec,
                    some ("spec " ++ spec.id ++ " refers to non-existent target bucket " ++
                      spec.targetBucketName))
                else if spec.targetBucketUUID ≠ "" ∧
                    spec.targetBucketUUID ≠ env.remoteBucketProbe.1 then
                  (some GoErr.invalidReplicationSpec,
                    some ("spec " ++ spec.id ++ " refers to bucket " ++
                      spec.targetBucketName ++ " which was deleted and recreated"))
                else (none, none)

/-- `ValidateAndGC(spec)`: when the class error is the invalid-spec sentinel,
invoke the internal soft-delete; a failed delete only logs, leaving the state
as it was. The catalog and cache are the state the run acts on. -/
def ValidateAndGC (env : ExistEnv) (cat : Catalog) (c : MetadataCache)
    (spec : ReplicationSpecification) : Catalog × MetadataCache :=
  let r := ValidateExistingReplicationSpec env spec
  if r.1 = some GoErr.invalidReplicationSpec then
    match delReplicationSpecInternal cat c spec.id with
    | .ok (_, cat2, c2) => (cat2, c2)
    | .error _ => (cat, c)
  else (cat, c)

/-! ### `SetReplicationSpec` -/

/-- Environment of one `SetReplicationSpec` run: the result of the
revision-checked `metadata_svc.Set` and of the `metadata_svc.Get` re-read
(the revision component; the value component is discarded by the source). -/
structure SetEnv where
  setResult : Except String Unit
  getResult : Except String (Option Nat)
deriving DecidableEq, Repr

/-- `SetReplicationSpec(spec)`: marshal (total on well-formed records), do the
revision-checked store write, re-read the key, install the re-read revision on
the spec and upsert it into the cache. The source discards the error returned
by the re-read: `rev` is used regardless (the Go zero value `nil` when the Get
failed) and the error variable is overwritten by the following `getCache`
call, so the function still reports success. -/
def SetReplicationSpec (env : SetEnv) (c : MetadataCache)
    (spec : ReplicationSpecification) : Except String MetadataCache :=
  match env.setResult with
  | .error e => .error e
  | .ok _ =>
      let rev : Option Nat :=
        match env.getResult with
        | .ok r => r
        | .error _ => none
      let spec2 := { spec with revision := rev }
      .ok (cacheSpec c spec2.id (some spec2))

/-! ### `ValidateNewReplicationSpec` -/

/-- Modelled from the spec: the replication identity syntax (spec section 6)
of the `metadata` package, which is not under src:
source_bucket, target_cluster_uuid and target_bucket joined by the key-parts
delimiter. -/
def ReplicationId (sourceBucket targetClusterUuid targetBucket : String) : String :=
  sourceBucket ++ KeyPartsDelimiter ++ targetClusterUuid ++ KeyPartsDelimiter ++ targetBucket

/-- Modelled from the spec: the `metadata.ReplicationTypeXmem` settings value
("memcached-style" replication, spec section 4.4). -/
def ReplicationTypeXmem : String := "xmem"

/-- Environment of one `ValidateNewReplicationSpec` run: the results of the
external calls it performs, in program order. -/
structure NewSpecEnv where
  myConnectionStr : String
  localBucketProbe : BucketProbe
  remoteClusterByRefName : Except String RemoteClusterRef
  myClusterUuid : Except String String
  refConnStr : Except String String
  refCredentials : Except String (String × String)
  remoteBucketProbe : BucketProbe
  isClusterCompatible : Except String Bool
deriving DecidableEq, Repr

/-- Continuation of `ValidateNewReplicationSpec` after the remote-cluster
reference has been obtained and the same-bucket check has fallen through:
connection string and credentials of the reference (each failure returns
early), then the target-bucket existence check, the duplicate-spec check
against the cache and the xmem-compatibility check, each appending its own
field errors. -/
def validateNewRest (env : NewSpecEnv) (c : MetadataCache)
    (sourceBucket targetBucket : String) (settingsReplType : Option String)
    (targetClusterRef : RemoteClusterRef) (sourceBucketUUID : String)
    (em0 : List (String × String)) :
    Except String (String × String × Option RemoteClusterRef × List (String × String)) :=
  match env.refConnStr with
  | .error e =>
      .ok ("", "", none,
        em0 ++ [(ToCluster, "invalid remote cluster, MyConnectionStr() failed. " ++ e)])
  | .ok _ =>
      match env.refCredentials with
      | .error e =>
          .ok ("", "", none,
            em0 ++ [(ToCluster, "invalid remote cluster, MyCredentials() failed. " ++ e)])
      | .ok _ =>
          let targetBucketUUID := env.remoteBucketProbe.1
          let em1 := em0 ++
            (if env.remoteBucketProbe.2 = some UtilsError.nonExistentBucket then
              [(ToBucket, "Bucket " ++ targetBucket ++ " not found")]
            else [])
          let repId := ReplicationId sourceBucket targetClusterRef.uuid targetBucket
          let em2 := em1 ++
            (match ReplicationSpec c repId with
            | .ok _ => [(PlaceHolderFieldKey, ReplicationSpecAlreadyExistErrorMessage)]
            | .error _ => [])
          let em3 := em2 ++
            (if settingsReplType = none ∨ settingsReplType = some ReplicationTypeXmem then
              match env.isClusterCompatible with
              | .error e => [(ToCluster, "Failed to get cluster version information, err=" ++ e)]
              | .ok xmemCompatible =>
                  if xmemCompatible then []
                  else [(ToCluster,
                    "Version 2 replication is disallowed. Cluster has nodes with versions less than 2.2.")]
            else [])
          .ok (sourceBucketUUID, targetBucketUUID, some targetClusterRef, em3)

/-- `ValidateNewReplicationSpec(sourceBucket, targetCluster, targetBucket,
settings)` returning `(sourceBucketUUID, targetBucketUUID, targetClusterRef,
errorMap)`; the error map is rendered as an association list in insertion
order (each Go map key is written at most once per run). `Except.error` is the
panic on an empty local connection string or a failed local-cluster-uuid
lookup. Early returns: missing target cluster reference, replication of a
bucket to itself, and connection-string or credentials failures of the target
reference (in `validateNewRest`). -/
def ValidateNewReplicationSpec (env : NewSpecEnv) (c : MetadataCache)
    (sourceBucket targetCluster targetBucket : String) (settingsReplType : Option String) :
    Except String (String × String × Option RemoteClusterRef × List (String × String)) :=
  if env.myConnectionStr = "" then
    .error "XDCRTopologySvc.MyConnectionStr() should not return empty string"
  else
    let sourceBucketUUID := env.localBucketProbe.1
    let em0 : List (String × String) :=
      if env.localBucketProbe.2 = some UtilsError.nonExistentBucket then
        [(FromBucket, "Bucket " ++ sourceBucket ++ " not found")]
      else []
    match env.remoteClusterByRefName with
    | .error e => .ok ("", "", none, em0 ++ [(ToCluster, "cannot find remote cluster " ++ e)])
    | .ok targetClusterRef =>
        if sourceBucket = targetBucket then
          match env.myClusterUuid with
          | .error _ => .error "cannot get local cluster uuid"
          | .ok sourceClusterUuid =>
              if sourceClusterUuid = targetClusterRef.uuid then
                .ok ("", "", none,
                  em0 ++ [(PlaceHolderFieldKey,
                    "Replication from a bucket to the same bucket is not allowed")])
              else
                validateNewRest env c sourceBucket targetBucket settingsReplType
                  targetClusterRef sourceBucketUUID em0
        else
          validateNewRest env c sourceBucket targetBucket settingsReplType
            targetClusterRef sourceBucketUUID em0

/-! ### Per-check error contributions of `ValidateNewReplicationSpec`

Each definition below restates, in isolation, the field errors one validation
check of the source contributes; the no-masking property compares the function
against their concatenation. -/

def sourceBucketCheckErrors (env : NewSpecEnv) (sourceBucket : String) :
    List (String × String) :=
  if env.localBucketProbe.2 = some UtilsError.nonExistentBucket then
    [(FromBucket, "Bucket " ++ sourceBucket ++ " not found")]
  else []

def targetBucketCheckErrors (env : NewSpecEnv) (targetBucket : String) :
    List (String × String) :=
  if env.remoteBucketProbe.2 = some UtilsError.nonExistentBucket then
    [(ToBucket, "Bucket " ++ targetBucket ++ " not found")]
  else []

def specExistsCheckErrors (c : MetadataCache) (repId : String) :
    List (String × String) :=
  match ReplicationSpec c repId with
  | .ok _ => [(PlaceHolderFieldKey, ReplicationSpecAlreadyExistErrorMessage)]
  | .error _ => []

def xmemCheckErrors (env : NewSpecEnv) (settingsReplType : Option String) :
    List (String × String) :=
  if settingsReplType = none ∨ settingsReplType = some ReplicationTypeXmem then
    match env.isClusterCompatible with
    | .error e => [(ToCluster, "Failed to get cluster version information, err=" ++ e)]
    | .ok xmemCompatible =>
        if xmemCompatible then []
        else [(ToCluster,
          "Version 2 replication is disallowed. Cluster has nodes with versions less than 2.2.")]
  else []

/-! ### The metakv change-notification callback -/

/-- Modelled from the spec: `base.GetKeyFromPath` is not under src; per the
persistence layout (spec sections 4.1 and 6) the catalog key is the last
slash-separated component of the notification path. -/
def GetKeyFromPath (path : String) : String :=
  String.mk ((path.data.reverse.takeWhile (fun ch => ch ≠ '/')).reverse)

/-- `getReplicationIdFromKey(key)`: strip the catalog prefix; the source
panics on a key without the prefix, modelled as the error branch. -/
def getReplicationIdFromKey (key : String) : Except String String :=
  let pfx := ReplicationSpecsCatalogKey ++ KeyPartsDelimiter
  if pfx.data.isPrefixOf key.data then .ok (String.mk (key.data.drop pfx.data.length))
  else .error "Got unexpected key for replication spec"

/-- `constructReplicationSpec(value, rev)`: a nil value decodes to nil; a
non-nil value decodes to the spec with the out-of-band revision installed.
Serialized values are modelled structurally (spec section 8: decode of encode
is the identity modulo revision); malformed payloads are not modelled. -/
def constructReplicationSpec (value : Option ReplicationSpecification)
    (rev : Option Nat) : Except String (Option ReplicationSpecification) :=
  match value with
  | none => .ok none
  | some s => .ok (some { s with revision := rev })

/-- `ReplicationSpecServiceCallback(path, value, rev)`: decode the value,
derive the replication id from the path, then cache the spec (a nil decoded
value is cached as nil, soft-removing or freshly inserting an empty entry).
Returns the Go quadruple `(repId, nil, spec, nil)` together with the updated
cache. -/
def ReplicationSpecServiceCallback (c : MetadataCache) (path : String)
    (value : Option ReplicationSpecification) (rev : Option Nat) :
    Except String (String × Option Nat × Option ReplicationSpecification × MetadataCache) :=
  match constructReplicationSpec value rev with
  | .error e => .error e
  | .ok spec =>
      match getReplicationIdFromKey (GetKeyFromPath path) with
      | .error e => .error e
      | .ok repId =>
          match spec with
          | some s => .ok (repId, none, some s, cacheSpec c repId (some s))
          | none => .ok (repId, none, none, cacheSpec c repId none)

/-! ### Concrete fixtures shared by the evaluation theorems -/

/-- A replication spec for source bucket A, target cluster U, target bucket B;
both bucket UUIDs were captured at creation, the confirmed revision is 1. -/
def specAUB : ReplicationSpecification :=
  { id := "A_U_B"
    sourceBucketName := "A"
    sourceBucketUUID := "su1"
    targetClusterUUID := "U"
    targetBucketName := "B"
    targetBucketUUID := "tu1"
    revision := some 1 }

/-- An initialized cache holding the A_U_B spec with no derived object. -/
def cacheAUB : MetadataCache :=
  ⟨[("A_U_B", { spec := some specAUB, derivedObj := none })]⟩

/-- The matching catalog state: the prefixed key at revision 1. -/
def catalogAUB : Catalog := ⟨[("replicationSpec_A_U_B", some 1)]⟩

/-! ### Generic supervisor (src/supervisor/generic_supervisor.go) -/

/-- Heartbeat response status of a child within one round. -/
inductive HeartbeatRespStatus where
  | skipStatus
  | notYetResponded
  | respondedOk
  | respondedNotOk
deriving DecidableEq, Repr

def default_heartbeat_interval : Nat := 1000

def default_heartbeat_timeout : Nat := 4000

def default_missed_heartbeat_threshold : Nat := 5

/-- The supervisor fields a parent exposes to `RemoveChild`. -/
structure ParentSupervisor where
  id : String
  children : List String
deriving DecidableEq, Repr

/-- The state-relevant fields of a `GenericSupervisor`. Durations are in
milliseconds; `missed_heartbeat_threshold` and the per-child missed-beat
counters are `uint16` in the source, kept as `Nat` with mod `2 ^ 16`
arithmetic at the increment. Channels, wait groups, the ticker and the logger
carry no state the claims depend on. -/
structure GenericSupervisor where
  id : String
  children : List String
  heartbeat_timeout : Nat
  heartbeat_interval : Nat
  missed_heartbeat_threshold : Nat
  childrenBeatMissedMap : List (String × Nat)
  parent_supervisor : Option ParentSupervisor
deriving DecidableEq, Repr

/-- `NewGenericSupervisor(id, logger_ctx, failure_handler, parent_supervisor)`:
all heartbeat settings start at their defaults, the missed-beat map is empty;
a non-nil parent additionally registers the new supervisor among the parent
children (`AddChild`). -/
def NewGenericSupervisor (id : String) (parent : Option ParentSupervisor) :
    GenericSupervisor :=
  { id := id
    children := []
    heartbeat_timeout := default_heartbeat_timeout
    heartbeat_interval := default_heartbeat_interval
    missed_heartbeat_threshold := default_missed_heartbeat_threshold
    childrenBeatMissedMap := []
    parent_supervisor := parent.map (fun p => { p with children := p.children ++ [id] }) }

/-- Well-typed supervisor settings: presence of each enumerated key. A field
that is `none` models an absent key; `ValidateSettings` accepts any well-typed
map. -/
structure SupervisorSettings where
  heartbeat_interval : Option Nat
  heartbeat_timeout : Option Nat
  missed_heartbeat_threshold : Option Nat
deriving DecidableEq, Repr

/-- `Init(settings)`: after validating the settings, the source copies only
`heartbeat_interval` and `heartbeat_timeout` out of the map; no statement
reads `missed_heartbeat_threshold` from the settings. -/
def GenericSupervisor.Init (sup : GenericSupervisor) (settings : SupervisorSettings) :
    GenericSupervisor :=
  { sup with
    heartbeat_interval :=
      match settings.heartbeat_interval with
      | some v => v
      | none => sup.heartbeat_interval
    heartbeat_timeout :=
      match settings.heartbeat_timeout with
      | some v => v
      | none => sup.heartbeat_timeout }

/-- Upsert into the missed-beat map (Go map assignment). -/
def insertBeatMap (m : List (String × Nat)) (k : String) (v : Nat) :
    List (String × Nat) :=
  if (lookupKey m k).isSome then m.map (fun e => if e.1 = k then (k, v) else e)
  else m ++ [(k, v)]

/-- One entry of `processReport`: a `respondedNotOk` or `notYetResponded`
child has its missed count incremented (uint16 arithmetic; an absent child
counts from zero) and is reported broken when the count exceeds the
threshold; any other status resets the count to zero. The accumulator is the
missed-beat map and the broken-children set. -/
def processReportEntry (threshold : Nat) (acc : List (String × Nat) × List String)
    (e : String × HeartbeatRespStatus) : List (String × Nat) × List String :=
  if e.2 = HeartbeatRespStatus.respondedNotOk ∨ e.2 = HeartbeatRespStatus.notYetResponded then
    let missedCount := ((lookupKey acc.1 e.1).getD 0 + 1) % 2 ^ 16
    let m2 := insertBeatMap acc.1 e.1 missedCount
    if threshold < missedCount then (m2, acc.2 ++ [e.1]) else (m2, acc.2)
  else (insertBeatMap acc.1 e.1 0, acc.2)

/-- `processReport(heartbeat_report)`: fold over the report; when the broken
set is non-empty the supervisor calls `ReportFailure`, which invokes the
failure handler on it. The returned list is that set. -/
def GenericSupervisor.processReport (sup : GenericSupervisor)
    (report : List (String × HeartbeatRespStatus)) : GenericSupervisor × List String :=
  let r := report.foldl (processReportEntry sup.missed_heartbeat_threshold)
    (sup.childrenBeatMissedMap, [])
  ({ sup with childrenBeatMissedMap := r.1 }, r.2)

/-- Runs `n` heartbeat rounds in which `childId` never responds (its report
entry stays `notYetResponded` every round, as `waitForResponse` leaves
laggards), returning the supervisor state and the broken set the failure
handler would receive in round `n`. -/
def neverRespondingRounds (sup : GenericSupervisor) (childId : String) :
    Nat → GenericSupervisor × List String
  | 0 => (sup, [])
  | n + 1 =>
      (neverRespondingRounds sup childId n).1.processReport
        [(childId, HeartbeatRespStatus.notYetResponded)]

/-- `RemoveChild(childId)` invoked on a parent pointer: the source calls it on
`supervisor.parent_supervisor` without a nil check; on a nil receiver the
method dereferences the embedded fields and the process crashes (modelled as
the error branch). -/
def removeChildFromParent (p : Option ParentSupervisor) (childId : String) :
    Except String ParentSupervisor :=
  match p with
  | none => .error "runtime error: invalid memory address or nil pointer dereference"
  | some par => .ok { par with children := par.children.filter (fun c => c ≠ childId) }

/-- `Stop()`: the waiter notification, server stop, quit-latch close, waitgroup
wait and ticker stop carry no state the claims depend on; the final statement
unconditionally calls `RemoveChild` on the parent pointer, so the result of
`Stop` is the result of that call. -/
def GenericSupervisor.Stop (sup : GenericSupervisor) :
    Except String (Option ParentSupervisor) :=
  match removeChildFromParent sup.parent_supervisor sup.id with
  | .error e => .error e
  | .ok par => .ok (some par)

/-! ### Concrete environments for the evaluation theorems -/

/-- A `ValidateExistingReplicationSpec` run whose local-bucket probe fails
transiently (a connection error, not bucket-not-found, with the Go zero-value
empty uuid alongside it) while every other probe succeeds and the target
bucket carries its captured UUID. -/
def transientExistEnv : ExistEnv :=
  { myConnectionStr := "localhost:9000"
    localBucketProbe := ("", some (UtilsError.other "connection refused"))
    remoteClusterByUuid := .ok { uuid := "U" }
    refConnStr := .ok "remote:9000"
    refCredentials := .ok ("user", "pw")
    remoteBucketProbe := ("tu1", none) }

/-- A `SetReplicationSpec` run whose revision-checked store write succeeds but
whose re-read of the key fails with a storage error. -/
def setEnvFailedReread : SetEnv :=
  { setResult := .ok ()
    getResult := .error "storage error" }

/-- A `ValidateNewReplicationSpec` run replicating bucket A to bucket A on the
local cluster itself (cluster uuid L on both sides), in which the remote
target-bucket probe additionally reports bucket-not-found. -/
def sameBucketEnv : NewSpecEnv :=
  { myConnectionStr := "localhost:9000"
    localBucketProbe := ("su1", none)
    remoteClusterByRefName := .ok { uuid := "L" }
    myClusterUuid := .ok "L"
    refConnStr := .ok "remote:9000"
    refCredentials := .ok ("user", "pw")
    remoteBucketProbe := ("", some UtilsError.nonExistentBucket)
    isClusterCompatible := .ok true }

/-- A fully healthy `ValidateNewReplicationSpec` run against an empty cache. -/
def noMaskEnv : NewSpecEnv :=
  { myConnectionStr := "localhost:9000"
    localBucketProbe := ("su1", none)
    remoteClusterByRefName := .ok { uuid := "U" }
    myClusterUuid := .ok "L"
    refConnStr := .ok "remote:9000"
    refCredentials := .ok ("user", "pw")
    remoteBucketProbe := ("tu1", none)
    isClusterCompatible := .ok true }

/-- A `ValidateExistingReplicationSpec` run in which both bucket probes
succeed: the source bucket exists with live uuid su2, the target bucket exists
with live uuid tu1, and the remote cluster reference resolves. -/
def liveSourceMismatchEnv : ExistEnv :=
  { myConnectionStr := "localhost:9000"
    localBucketProbe := ("su2", none)
    remoteClusterByUuid := .ok { uuid := "U" }
    refConnStr := .ok "remote:9000"
    refCredentials := .ok ("user", "pw")
    remoteBucketProbe := ("tu1", none) }

/-- A `ValidateExistingReplicationSpec` run in which both bucket probes
succeed, the source side matches its captured UUID and the target bucket
exists with live uuid tu2 (differing from the captured tu1). -/
def liveTargetMismatchEnv : ExistEnv :=
  { myConnectionStr := "localhost:9000"
    localBucketProbe := ("su1", none)
    remoteClusterByUuid := .ok { uuid := "U" }
    refConnStr := .ok "remote:9000"
    refCredentials := .ok ("user", "pw")
    remoteBucketProbe := ("tu2", none) }

/-- Supervisor settings carrying only a missed-heartbeat threshold of 1. -/
def thresholdOneSettings : SupervisorSettings :=
  { heartbeat_interval := none
    heartbeat_timeout := none
    missed_heartbeat_threshold := some 1 }

/-- A parentless supervisor started with `thresholdOneSettings`. -/
def supThresholdOne : GenericSupervisor :=
  (NewGenericSupervisor "sup" none).Init thresholdOneSettings

/-! ### Association-list lemmas -/

theorem lookupKey_nil {α : Type} (k : String) :
    lookupKey ([] : List (String × α)) k = none := rfl

theorem lookupKey_cons {α : Type} (e : String × α) (l : List (String × α)) (k : String) :
    lookupKey (e :: l) k = if e.1 = k then some e.2 else lookupKey l k := rfl

theorem lookupKey_replaceAll {α : Type} (l : List (String × α)) (k : String) (v : α) :
    lookupKey (l.map (fun e => if e.1 = k then (k, v) else e)) k =
      (lookupKey l k).map (fun _ => v) := by
  induction l with
  | nil => rfl
  | cons e t ih =>
      by_cases he : e.1 = k
      · simp [lookupKey_cons, he, ih]
      · simp [lookupKey_cons, he, ih]

theorem lookupKey_append_none {α : Type} {l₁ l₂ : List (String × α)} {k : String}
    (h : lookupKey l₁ k = none) : lookupKey (l₁ ++ l₂) k = lookupKey l₂ k := by
  induction l₁ with
  | nil => rfl
  | cons e t ih =>
      rw [lookupKey_cons] at h
      by_cases he : e.1 = k
      · rw [if_pos he] at h
        exact absurd h (by simp)
      · rw [if_neg he] at h
        rw [List.cons_append, lookupKey_cons, if_neg he]
        exact ih h

theorem MetadataCache.get_upsert_self (c : MetadataCache) (k : String)
    (v : ReplicationSpecVal) : (c.upsert k v).get k = some v := by
  unfold MetadataCache.upsert MetadataCache.get
  by_cases h : (lookupKey c.entries k).isSome
  · rw [if_pos h]
    show lookupKey (c.entries.map _) k = some v
    rw [lookupKey_replaceAll]
    obtain ⟨w, hw⟩ := Option.isSome_iff_exists.mp h
    rw [hw]
    rfl
  · rw [if_neg h]
    have hn : lookupKey c.entries k = none := by
      cases hx : lookupKey c.entries k with
      | none => rfl
      | some w => rw [hx] at h; exact absurd rfl h
    show lookupKey (c.entries ++ [(k, v)]) k = some v
    rw [lookupKey_append_none hn, lookupKey_cons, if_pos rfl]

theorem lookupKey_allspecs_of_not_mem (l : List (String × ReplicationSpecVal))
    (k : String) (h : k ∉ l.map Prod.fst) :
    lookupKey (l.filterMap (fun e => (e.2.spec).map (fun s => (e.1, s)))) k = none := by
  induction l with
  | nil => rfl
  | cons e t ih =>
      simp only [List.map_cons, List.mem_cons, not_or] at h
      obtain ⟨h1, h2⟩ := h
      cases hs : e.2.spec with
      | none => simpa [List.filterMap_cons, hs] using ih h2
      | some s =>
          simp only [List.filterMap_cons, hs, Option.map_some']
          rw [lookupKey_cons, if_neg (fun hh => h1 hh.symm)]
          exact ih h2

theorem lookupKey_allspecs_none (l : List (String × ReplicationSpecVal)) (k : String)
    (d : Option Nat) (hnodup : (l.map Prod.fst).Nodup)
    (h : lookupKey l k = some { spec := none, derivedObj := d }) :
    lookupKey (l.filterMap (fun e => (e.2.spec).map (fun s => (e.1, s)))) k = none := by
  induction l with
  | nil => exact absurd h (by simp [lookupKey_nil])
  | cons e t ih =>
      rw [lookupKey_cons] at h
      simp only [List.map_cons, List.nodup_cons] at hnodup
      obtain ⟨hk, hnd⟩ := hnodup
      by_cases he : e.1 = k
      · rw [if_pos he] at h
        have h2 : e.2 = { spec := none, derivedObj := d } := by
          injection h
        simp only [List.filterMap_cons, h2, Option.map_none']
        exact lookupKey_allspecs_of_not_mem t k (he ▸ hk)
      · rw [if_neg he] at h
        cases hs : e.2.spec with
        | none => simpa [List.filterMap_cons, hs] using ih hnd h
        | some s =>
            simp only [List.filterMap_cons, hs, Option.map_some']
            rw [lookupKey_cons, if_neg he]
            exact ih hnd h

/-! ### Claim theorems -/

/-- C1: evaluation at the failing input. With the A_U_B spec cached and the
catalog holding its key at the spec revision, `DelReplicationSpec("A_U_B")`
succeeds, returns the spec and deletes the catalog entry, yet the returned
cache is exactly the input cache: the soft-removal looks the entry up under
the catalog key `replicationSpec_A_U_B` while the cache is keyed by `A_U_B`,
so an immediately following `ReplicationSpec("A_U_B")` still returns the spec
instead of not-found. -/
theorem delReplicationSpec_soft_remove_misses_cache :
    DelReplicationSpec catalogAUB cacheAUB "A_U_B" =
      .ok (specAUB, (⟨[]⟩ : Catalog), cacheAUB) ∧
    ReplicationSpec cacheAUB "A_U_B" = .ok specAUB ∧
    getKeyFromReplicationId "A_U_B" = "replicationSpec_A_U_B" ∧
    cacheAUB.get "replicationSpec_A_U_B" = none := by decide

/-- C2: evaluation at the failing input. After the successful
`DelReplicationSpec("A_U_B")` of an entry with no derived object, the cache
entry still holds the spec (the soft-remove missed, see C1), so
`SetDerivedObj("A_U_B", nil)` keeps the entry instead of hard-removing it:
the cache still maps A_U_B to the original value afterwards. -/
theorem delReplicationSpec_then_detach_keeps_entry :
    DelReplicationSpec catalogAUB cacheAUB "A_U_B" =
      .ok (specAUB, (⟨[]⟩ : Catalog), cacheAUB) ∧
    SetDerivedObj cacheAUB "A_U_B" none = .ok cacheAUB ∧
    cacheAUB.get "A_U_B" = some { spec := some specAUB, derivedObj := none } := by decide

/-- C3: a cache entry in the soft-removed state (spec field absent, derived
object attached) reports not-found from `ReplicationSpec`, succeeds from
`GetDerviedObj` with the attached object, and is excluded from
`AllReplicationSpecs`: every read path checks the spec field before returning
a spec. -/
theorem softRemoved_entry_reads (c : MetadataCache) (id : String) (d : Nat)
    (hnodup : (c.entries.map Prod.fst).Nodup)
    (h : c.get id = some { spec := none, derivedObj := some d }) :
    ReplicationSpec c id = .error ReplicationSpecNotFoundErrorMessage ∧
    GetDerviedObj c id = .ok (some d) ∧
    lookupKey (AllReplicationSpecs c) id = none := by
  refine ⟨?_, ?_, ?_⟩
  · unfold ReplicationSpec
    rw [h]
  · unfold GetDerviedObj
    rw [h]
  · exact lookupKey_allspecs_none c.entries id (some d) hnodup h

/-- C3 witness: the soft-removed entry A_U_B with derived object 7. -/
theorem softRemoved_entry_reads_witness :
    ReplicationSpec ⟨[("A_U_B", ⟨none, some 7⟩)]⟩ "A_U_B" =
      .error ReplicationSpecNotFoundErrorMessage ∧
    GetDerviedObj ⟨[("A_U_B", ⟨none, some 7⟩)]⟩ "A_U_B" = .ok (some 7) ∧
    lookupKey (AllReplicationSpecs ⟨[("A_U_B", ⟨none, some 7⟩)]⟩) "A_U_B" = none :=
  softRemoved_entry_reads ⟨[("A_U_B", ⟨none, some 7⟩)]⟩ "A_U_B" 7 (by decide) (by decide)

/-- C4: evaluation at the failing input. When the local-bucket probe fails
transiently (an error other than bucket-not-found, carrying the zero-value
empty uuid) and the captured source-bucket UUID is non-empty,
`ValidateExistingReplicationSpec` classifies the spec with the invalid-spec
sentinel, and `ValidateAndGC` therefore garbage-collects it: the catalog entry
is deleted, contradicting that transient probe failures never delete. -/
theorem transient_probe_error_garbage_collects :
    transientExistEnv.localBucketProbe.2 ≠ some UtilsError.nonExistentBucket ∧
    transientExistEnv.localBucketProbe.2 ≠ none ∧
    (ValidateExistingReplicationSpec transientExistEnv specAUB).1 =
      some GoErr.invalidReplicationSpec ∧
    ValidateAndGC transientExistEnv catalogAUB cacheAUB specAUB =
      ((⟨[]⟩ : Catalog), cacheAUB) := by decide

/-- C7: evaluation at the failing input. With the store write succeeding and
the re-read failing, `SetReplicationSpec` still reports success and caches the
spec, its revision the Go zero value: the re-read error is discarded (the
variable holding it is overwritten by the `getCache` call before any check). -/
theorem setReplicationSpec_ignores_failed_reread :
    SetReplicationSpec setEnvFailedReread cacheAUB specAUB =
      .ok ⟨[("A_U_B",
        { spec := some { specAUB with revision := none }, derivedObj := none })]⟩ := by decide

/-- C8: evaluation at the failing input. `Init` copies only the heartbeat
interval and timeout out of the settings: after starting with
`missed_heartbeat_threshold = 1` the effective threshold is still the default
5, so with a child that never responds the failure handler is not invoked in
rounds 1 through 5 (the claim requires it by round `1 + 1 = 2`) and first
fires in round 6. -/
theorem init_ignores_missed_heartbeat_threshold :
    thresholdOneSettings.missed_heartbeat_threshold = some 1 ∧
    supThresholdOne.missed_heartbeat_threshold = 5 ∧
    (neverRespondingRounds supThresholdOne "child" 2).2 = [] ∧
    (neverRespondingRounds supThresholdOne "child" 5).2 = [] ∧
    (neverRespondingRounds supThresholdOne "child" 6).2 = ["child"] := by decide

/-- C9: evaluation at the failing input. `Stop` on a supervisor constructed
with no parent calls `RemoveChild` on the nil parent pointer unconditionally
and crashes with a nil-pointer dereference instead of returning. -/
theorem stop_without_parent_crashes :
    (NewGenericSupervisor "sup" none).Stop =
      .error "runtime error: invalid memory address or nil pointer dereference" := by decide

/-- C5 counterexample: with the target cluster reference found, validation of
replicating bucket A to bucket A on the same cluster returns early with only
the catch-all error, although the environment reports the target bucket as
non-existent: the applicable toBucket error is masked, so the missing target
cluster reference is not the single early exit. -/
theorem validateNew_same_bucket_masks_target_check :
    ValidateNewReplicationSpec sameBucketEnv ⟨[]⟩ "A" "r" "A" none =
      .ok ("", "", none,
        [(PlaceHolderFieldKey, "Replication from a bucket to the same bucket is not allowed")]) ∧
    sameBucketEnv.remoteClusterByRefName = .ok { uuid := "L" } ∧
    sameBucketEnv.remoteBucketProbe.2 = some UtilsError.nonExistentBucket ∧
    lookupKey
      [(PlaceHolderFieldKey, "Replication from a bucket to the same bucket is not allowed")]
      ToBucket = none := by decide

/-- C5 as amended: when none of the four early exits triggers — the target
cluster reference resolves, source and target are not the same bucket on the
same cluster, and its connection string and credentials are obtainable —
`ValidateNewReplicationSpec` runs every remaining validation and returns the
concatenation of the field errors each check contributes on its own: no
failure masks a later check. -/
theorem validateNew_no_masking_after_guards (env : NewSpecEnv) (c : MetadataCache)
    (sourceBucket targetCluster targetBucket : String) (settingsReplType : Option String)
    (ref : RemoteClusterRef) (s : String) (p : String × String)
    (hconn : env.myConnectionStr ≠ "")
    (href : env.remoteClusterByRefName = .ok ref)
    (hsame : sourceBucket ≠ targetBucket ∨
      (∃ lu, env.myClusterUuid = .ok lu ∧ lu ≠ ref.uuid))
    (hcs : env.refConnStr = .ok s)
    (hcr : env.refCredentials = .ok p) :
    ValidateNewReplicationSpec env c sourceBucket targetCluster targetBucket settingsReplType =
      .ok (env.localBucketProbe.1, env.remoteBucketProbe.1, some ref,
        sourceBucketCheckErrors env sourceBucket ++
        targetBucketCheckErrors env targetBucket ++
        specExistsCheckErrors c (ReplicationId sourceBucket ref.uuid targetBucket) ++
        xmemCheckErrors env settingsReplType) := by
  have hrest : validateNewRest env c sourceBucket targetBucket settingsReplType ref
      env.localBucketProbe.1 (sourceBucketCheckErrors env sourceBucket) =
      .ok (env.localBucketProbe.1, env.remoteBucketProbe.1, some ref,
        sourceBucketCheckErrors env sourceBucket ++
        targetBucketCheckErrors env targetBucket ++
        specExistsCheckErrors c (ReplicationId sourceBucket ref.uuid targetBucket) ++
        xmemCheckErrors env settingsReplType) := by
    unfold validateNewRest
    rw [hcs, hcr]
    rfl
  unfold ValidateNewReplicationSpec
  rw [if_neg hconn, href]
  by_cases hsb : sourceBucket = targetBucket
  · rcases hsame with hne | ⟨lu, hlu, hneu⟩
    · exact absurd hsb hne
    · simp only [if_pos hsb, hlu, if_neg hneu]
      exact hrest
  · simp only [if_neg hsb]
    exact hrest

/-- C5 amended witness: a healthy environment against an empty cache yields
every uuid and an empty error map. -/
theorem validateNew_no_masking_witness :
    ValidateNewReplicationSpec noMaskEnv ⟨[]⟩ "A" "r" "B" none =
      .ok ("su1", "tu1", some { uuid := "U" }, []) :=
  (validateNew_no_masking_after_guards noMaskEnv ⟨[]⟩ "A" "r" "B" none
    { uuid := "U" } "remote:9000" ("user", "pw")
    (by decide) rfl (Or.inl (by decide)) rfl rfl).trans (by decide)

/-- C6: a non-empty captured bucket UUID that differs from the live UUID of
the same-named, still existing bucket makes `ValidateExistingReplicationSpec`
return the invalid-spec sentinel as its class error: the first conjunct covers
a source-bucket UUID mismatch, the second a target-bucket UUID mismatch with
the source side passing and the remote reference resolving. -/
theorem captured_uuid_mismatch_is_invalid_spec (env : ExistEnv)
    (spec : ReplicationSpecification) :
    (env.myConnectionStr ≠ "" → env.localBucketProbe.2 = none →
      spec.sourceBucketUUID ≠ "" → spec.sourceBucketUUID ≠ env.localBucketProbe.1 →
      (ValidateExistingReplicationSpec env spec).1 = some GoErr.invalidReplicationSpec) ∧
    (env.myConnectionStr ≠ "" → env.localBucketProbe.2 = none →
      (spec.sourceBucketUUID = "" ∨ spec.sourceBucketUUID = env.localBucketProbe.1) →
      (∃ ref, env.remoteClusterByUuid = .ok ref) →
      (∃ cs, env.refConnStr = .ok cs) →
      (∃ cr, env.refCredentials = .ok cr) →
      env.remoteBucketProbe.2 = none →
      spec.targetBucketUUID ≠ "" → spec.targetBucketUUID ≠ env.remoteBucketProbe.1 →
      (ValidateExistingReplicationSpec env spec).1 = some GoErr.invalidReplicationSpec) := by
  constructor
  · intro h0 h1 h2 h3
    unfold ValidateExistingReplicationSpec
    rw [if_neg h0, if_neg (by simp [h1]), if_pos ⟨h2, h3⟩]
  · intro h0 h1 hsrc ⟨ref, hr⟩ ⟨cs, hcs⟩ ⟨cr, hcr⟩ hp2 ht1 ht2
    unfold ValidateExistingReplicationSpec
    rw [if_neg h0, if_neg (by simp [h1]),
      if_neg (by rcases hsrc with h | h <;> simp [h]),
      hr, hcs, hcr, if_neg (by simp [hp2]), if_pos ⟨ht1, ht2⟩]

/-- C6 witness: the A_U_B spec against a live source bucket with uuid su2
(captured su1), and against a matching source side with a live target bucket
of uuid tu2 (captured tu1). -/
theorem captured_uuid_mismatch_witness :
    (ValidateExistingReplicationSpec liveSourceMismatchEnv specAUB).1 =
      some GoErr.invalidReplicationSpec ∧
    (ValidateExistingReplicationSpec liveTargetMismatchEnv specAUB).1 =
      some GoErr.invalidReplicationSpec :=
  ⟨(captured_uuid_mismatch_is_invalid_spec liveSourceMismatchEnv specAUB).1
      (by decide) rfl (by decide) (by decide),
    (captured_uuid_mismatch_is_invalid_spec liveTargetMismatchEnv specAUB).2
      (by decide) rfl (Or.inr (by decide)) ⟨{ uuid := "U" }, rfl⟩
      ⟨"remote:9000", rfl⟩ ⟨("user", "pw"), rfl⟩ rfl (by decide) (by decide)⟩

/-- C10: the metakv callback invoked with a nil value for a replication id
with no cache entry inserts a fresh entry whose spec and derived-object
fields are both absent; afterwards `GetDerviedObj` succeeds returning the
absent derived object while `ReplicationSpec` reports not-found. -/
theorem callback_nil_value_inserts_empty_entry (c : MetadataCache) (path : String)
    (rev : Option Nat) (repId : String)
    (hkey : getReplicationIdFromKey (GetKeyFromPath path) = .ok repId)
    (habsent : c.get repId = none) :
    ReplicationSpecServiceCallback c path none rev =
      .ok (repId, none, none, c.upsert repId { spec := none, derivedObj := none }) ∧
    (c.upsert repId { spec := none, derivedObj := none }).get repId =
      some { spec := none, derivedObj := none } ∧
    GetDerviedObj (c.upsert repId { spec := none, derivedObj := none }) repId =
      .ok none ∧
    ReplicationSpec (c.upsert repId { spec := none, derivedObj := none }) repId =
      .error ReplicationSpecNotFoundErrorMessage := by
  have hup := MetadataCache.get_upsert_self c repId { spec := none, derivedObj := none }
  refine ⟨?_, hup, ?_, ?_⟩
  · unfold ReplicationSpecServiceCallback constructReplicationSpec
    rw [hkey]
    show Except.ok (repId, none, none, cacheSpec c repId none) = _
    unfold cacheSpec
    rw [habsent]
  · unfold GetDerviedObj
    rw [hup]
  · unfold ReplicationSpec
    rw [hup]

/-- C10 witness: a deletion notification for A_U_B against an empty cache. -/
theorem callback_nil_value_witness :
    ReplicationSpecServiceCallback ⟨[]⟩ "/replicationSpec_A_U_B" none none =
      .ok ("A_U_B", none, none,
        MetadataCache.upsert ⟨[]⟩ "A_U_B" { spec := none, derivedObj := none }) ∧
    (MetadataCache.upsert ⟨[]⟩ "A_U_B" { spec := none, derivedObj := none }).get "A_U_B" =
      some { spec := none, derivedObj := none } ∧
    GetDerviedObj (MetadataCache.upsert ⟨[]⟩ "A_U_B" { spec := none, derivedObj := none })
      "A_U_B" = .ok none ∧
    ReplicationSpec (MetadataCache.upsert ⟨[]⟩ "A_U_B" { spec := none, derivedObj := none })
      "A_U_B" = .error ReplicationSpecNotFoundErrorMessage :=
  callback_nil_value_inserts_empty_entry ⟨[]⟩ "/replicationSpec_A_U_B" none "A_U_B"
    (by decide) rfl
